import Mathlib

/-!
Shallow embedding of the Mark-Shop Flask application (`src/app.py`).

The five SQLAlchemy models become Lean structures; the SQLite database
becomes a `Store` record of row lists together with per-table
auto-increment counters (SQLite assigns ids 1, 2, ... in insertion
order).  Prices are embedded as `Rat` (Python floats hold the exact
decimal literals used by the program's formulas; the claims are about
the formulas, not float rounding).  `datetime.utcnow` timestamps are an
abstract `Nat` parameter `now`.

Route handlers become pure functions `Store → input → Store × response`.
A Python exception inside a handler's `try` block always ends in
`db.session.rollback()` followed by an error response, so an exception
is embedded as the handler returning the *unchanged* store with the
error response.  Fields read with `request.form.get` / `data.get` are
`Option`-typed: `none` is an absent key (Python `None`).  A column
declared `nullable=False` makes the INSERT fail (IntegrityError) when
its value is `None`; those commit-time failures are folded into the
same exception path.

SQLite enforces NOT NULL constraints but (by default, as here) not
foreign keys, so an `OrderItem.product_id` pointing at a nonexistent
product commits fine, while deleting a `Product` that still has
order items fails: the `OrderItem.product` relationship has no delete
cascade, so SQLAlchemy nulls out `order_item.product_id` on parent
delete, violating its NOT NULL constraint and rolling the whole
transaction back.
-/

namespace MarkShop

/-- Row of table `category` (`class Category`, src/app.py:30). -/
structure Category where
  id : Nat
  name : String
  description : String
  deriving Repr, DecidableEq

/-- Row of table `product` (`class Product`, src/app.py:52). -/
structure Product where
  id : Nat
  name : String
  price : Rat
  image_url : String
  discount : Rat
  category_id : Option Nat
  description : String
  created_at : Nat
  deriving Repr, DecidableEq

/-- Row of table `review` (`class Review`, src/app.py:102). -/
structure Review where
  id : Nat
  product_id : Nat
  customer_name : String
  rating : Int
  comment : String
  created_at : Nat
  deriving Repr, DecidableEq

/-- Row of table `order` (`class Order`, src/app.py:127). -/
structure Order where
  id : Nat
  customer_name : String
  customer_email : String
  customer_phone : String
  customer_address : String
  payment_method : String
  total_price : Rat
  status : String
  created_at : Nat
  deriving Repr, DecidableEq

/-- Row of table `order_item` (`class OrderItem`, src/app.py:174). -/
structure OrderItem where
  id : Nat
  order_id : Nat
  product_id : Nat
  quantity : Int
  price : Rat
  deriving Repr, DecidableEq

/-- The SQLite database: one list of rows per table plus the
auto-increment counter each table hands to its next INSERT. -/
structure Store where
  categories : List Category
  products : List Product
  reviews : List Review
  orders : List Order
  order_items : List OrderItem
  next_category_id : Nat
  next_product_id : Nat
  next_review_id : Nat
  next_order_id : Nat
  next_order_item_id : Nat
  deriving Repr, DecidableEq

/-- Freshly created database (`db.create_all()` before any seed). -/
def emptyStore : Store := ⟨[], [], [], [], [], 1, 1, 1, 1, 1⟩

/-- Flask `session` state used by the app: the `admin_logged_in` flag
and the stored `admin_username` (src/app.py:481-482). -/
structure Session where
  admin_logged_in : Bool
  admin_username : Option String
  deriving Repr, DecidableEq

/-- A fresh session (no cookie / after `session.clear()`). -/
def emptySession : Session := ⟨false, none⟩

/-- `is_admin_logged_in` (src/app.py:467-469). -/
def is_admin_logged_in (s : Session) : Bool := s.admin_logged_in

/-- `login` POST branch (src/app.py:472-487): returns the new session
and whether the credentials matched (redirect to dashboard vs. error
re-render). -/
def login (s : Session) (username password : String) : Session × Bool :=
  if username == "admin" && password == "1234" then
    (⟨true, some username⟩, true)
  else
    (s, false)

/-- `logout` (src/app.py:490-494): `session.clear()`. -/
def logout (_s : Session) : Session := emptySession

/-! ## Product serialization (src/app.py:68-96) -/

/-- `Product.get_sale_price` (src/app.py:68-70). -/
def Product.get_sale_price (p : Product) : Rat :=
  p.price * (1 - p.discount / 100)

/-- The `reviews` relationship of a product: the review rows whose
`product_id` foreign key matches (src/app.py:66). -/
def productReviews (st : Store) (pid : Nat) : List Review :=
  st.reviews.filter (fun r => r.product_id == pid)

/-- `Product.get_average_rating` (src/app.py:72-77): 0 with no
reviews, else the sum of ratings divided by their count. -/
def Product.get_average_rating (p : Product) (st : Store) : Rat :=
  let rs := productReviews st p.id
  if rs.isEmpty then 0
  else ((rs.map (fun r => (r.rating : Rat))).sum) / (rs.length : Rat)

/-- Python's `round` ties-to-even on an exact rational value. -/
def roundHalfEven (x : Rat) : Int :=
  if x - (⌊x⌋ : Rat) < 1 / 2 then ⌊x⌋
  else if 1 / 2 < x - (⌊x⌋ : Rat) then ⌊x⌋ + 1
  else if ⌊x⌋ % 2 = 0 then ⌊x⌋ else ⌊x⌋ + 1

/-- `round(x, 1)`: round to one decimal place. -/
def round1 (x : Rat) : Rat := ((roundHalfEven (10 * x) : Int) : Rat) / 10

/-- The dictionary produced by `Product.to_dict` (src/app.py:83-96). -/
structure ProductDict where
  id : Nat
  name : String
  price : Rat
  image_url : String
  discount : Rat
  sale_price : Option Rat
  category : Option Category
  description : String
  rating : Rat
  review_count : Nat
  deriving Repr, DecidableEq

/-- `Product.to_dict` (src/app.py:83-96): `sale_price` only when
`discount > 0`, the joined category row when `category_id` resolves,
and the average rating rounded to 1 decimal. -/
def Product.to_dict (p : Product) (st : Store) : ProductDict :=
  { id := p.id
    name := p.name
    price := p.price
    image_url := p.image_url
    discount := p.discount
    sale_price := if p.discount > 0 then some p.get_sale_price else none
    category := p.category_id.bind (fun cid => st.categories.find? (fun c => c.id == cid))
    description := p.description
    rating := round1 (p.get_average_rating st)
    review_count := (productReviews st p.id).length }

/-- `GET /api/products` (src/app.py:303-313): all products, optionally
filtered by `category_id`, each serialized with `to_dict`. -/
def get_products (st : Store) (category_id : Option Nat) : List ProductDict :=
  match category_id with
  | some cid => (st.products.filter (fun p => p.category_id == some cid)).map
      (fun p => p.to_dict st)
  | none => st.products.map (fun p => p.to_dict st)

/-- `GET /api/products/<id>` (src/app.py:352-360): `none` is the 404
branch. -/
def get_product (st : Store) (pid : Nat) : Option ProductDict :=
  (st.products.find? (fun p => p.id == pid)).map (fun p => p.to_dict st)

/-! ## Checkout (src/app.py:238-290) -/

/-- One element of the parsed `cart_data` JSON array.  Each field is
`none` when the key is missing from the item dict (reading it then
raises `KeyError`). -/
structure CartItem where
  id : Option Nat
  quantity : Option Int
  price : Option Rat
  deriving Repr, DecidableEq

/-- The `cart_data` form field.  `absent` is a missing or empty string
(`json.loads(cart_data) if cart_data else []` yields `[]`);
`malformed` is anything that makes `json.loads` raise or yields a
non-list (the iteration then raises); `parsed` is a JSON array of item
dicts. -/
inductive CartData where
  | absent
  | malformed
  | parsed (items : List CartItem)
  deriving Repr, DecidableEq

/-- The POST form read by `checkout` (src/app.py:244-249). -/
structure CheckoutForm where
  customer_name : Option String
  customer_email : Option String
  customer_phone : Option String
  customer_address : Option String
  payment_method : Option String
  cart_data : CartData
  deriving Repr, DecidableEq

/-- Response of the checkout POST: re-render with an error message, or
redirect to `/checkout/success/<order_id>`. -/
inductive CheckoutResponse where
  | renderError (msg : String)
  | redirectSuccess (order_id : Nat)
  deriving Repr, DecidableEq

/-- Error shown for an empty cart (src/app.py:255). -/
def cartEmptyMsg : String := "no items in cart"

/-- Error shown by the exception handler (src/app.py:288). -/
def checkoutErrorMsg : String := "checkout failed"

/-- Read `item['id']`, `item['quantity']`, `item['price']` off every
cart item; `none` when any key is missing (`KeyError`). -/
def extractItems : List CartItem → Option (List (Nat × Int × Rat))
  | [] => some []
  | it :: rest =>
    match it.id, it.quantity, it.price, extractItems rest with
    | some pid, some q, some pr, some tl => some ((pid, q, pr) :: tl)
    | _, _, _, _ => none

/-- `sum(item['price'] * item['quantity'] for item in cart_items)`
(src/app.py:258). -/
def cartTotal (rows : List (Nat × Int × Rat)) : Rat :=
  (rows.map (fun r => r.2.2 * (r.2.1 : Rat))).sum

/-- The OrderItem rows built in the loop at src/app.py:272-278, with
ids and the `order_id` foreign key as assigned at commit. -/
def mkOrderItems (base : Nat) (oid : Nat) : List (Nat × Int × Rat) → List OrderItem
  | [] => []
  | (pid, q, pr) :: rest => ⟨base, oid, pid, q, pr⟩ :: mkOrderItems (base + 1) oid rest

/-- Body of the `try` block of the checkout POST (src/app.py:242-284).
`none` means an exception escaped (malformed JSON, `KeyError` on an
item dict, or a NOT NULL customer column at commit). -/
def checkoutBody (st : Store) (f : CheckoutForm) (now : Nat) :
    Option (Store × CheckoutResponse) :=
  match f.cart_data with
  | CartData.malformed => none
  | CartData.absent => some (st, CheckoutResponse.renderError cartEmptyMsg)
  | CartData.parsed items =>
    if items.isEmpty then
      some (st, CheckoutResponse.renderError cartEmptyMsg)
    else
      match extractItems items, f.customer_name, f.customer_email,
            f.customer_phone, f.customer_address, f.payment_method with
      | some rows, some cname, some cemail, some cphone, some caddr, some pm =>
        let oid := st.next_order_id
        let newOrder : Order :=
          ⟨oid, cname, cemail, cphone, caddr, pm, cartTotal rows, "pending", now⟩
        some ({ st with
                orders := st.orders ++ [newOrder],
                order_items := st.order_items ++ mkOrderItems st.next_order_item_id oid rows,
                next_order_id := oid + 1,
                next_order_item_id := st.next_order_item_id + rows.length },
              CheckoutResponse.redirectSuccess oid)
      | _, _, _, _, _, _ => none

/-- The checkout POST handler (src/app.py:238-290): an escaped
exception hits `db.session.rollback()` and re-renders with an error,
leaving the store unchanged. -/
def checkout (st : Store) (f : CheckoutForm) (now : Nat) : Store × CheckoutResponse :=
  match checkoutBody st f now with
  | some r => r
  | none => (st, CheckoutResponse.renderError checkoutErrorMsg)

/-! ## JSON product CRUD (src/app.py:323-414) -/

/-- HTTP outcome of a JSON product endpoint: 201, 200, 404 or 400. -/
inductive ApiStatus where
  | created
  | ok
  | notFound
  | badRequest
  deriving Repr, DecidableEq

/-- The JSON body of `POST /api/products` as read by `data.get`
(src/app.py:327-336); `none` is an absent key. -/
structure ProductCreateData where
  name : Option String
  price : Option Rat
  image_url : Option String
  category_id : Option Nat
  description : Option String
  deriving Repr, DecidableEq

/-- `create_product` (src/app.py:323-349): inserts the product with
`discount` at its default 0; a `None` in a NOT NULL column
(name/price/image_url) makes the commit raise, which the handler turns
into rollback + 400.  `category_id` is not checked against existing
categories (SQLite does not enforce the foreign key). -/
def create_product (st : Store) (data : ProductCreateData) (now : Nat) :
    Store × ApiStatus :=
  match data.name, data.price, data.image_url with
  | some n, some pr, some url =>
    let p : Product :=
      ⟨st.next_product_id, n, pr, url, 0, data.category_id, data.description.getD "", now⟩
    ({ st with products := st.products ++ [p], next_product_id := st.next_product_id + 1 },
     ApiStatus.created)
  | _, _, _ => (st, ApiStatus.badRequest)

/-- The JSON body of `PUT /api/products/<id>` (src/app.py:372-384).
Each field is `some v` when the key is present (`'name' in data`) and
`none` when absent.  For `category_id` the present value may itself be
JSON null, hence the nested `Option`. -/
structure ProductPatch where
  name : Option String
  price : Option Rat
  image_url : Option String
  category_id : Option (Option Nat)
  description : Option String
  deriving Repr, DecidableEq

/-- The five `if 'field' in data:` assignments of `update_product`
(src/app.py:375-384): present keys overwrite, absent keys keep the
stored value; `discount` and `created_at` have no branch and are never
touched. -/
def applyPatch (p : Product) (data : ProductPatch) : Product :=
  { p with
    name := data.name.getD p.name,
    price := data.price.getD p.price,
    image_url := data.image_url.getD p.image_url,
    category_id := data.category_id.getD p.category_id,
    description := data.description.getD p.description }

/-- `update_product` (src/app.py:363-395): 404 when the id resolves to
no product, else apply the patch to that row and 200. -/
def update_product (st : Store) (pid : Nat) (data : ProductPatch) :
    Store × ApiStatus :=
  match st.products.find? (fun p => p.id == pid) with
  | none => (st, ApiStatus.notFound)
  | some _ =>
    ({ st with products :=
        st.products.map (fun p => if p.id == pid then applyPatch p data else p) },
     ApiStatus.ok)

/-- `delete_product` (src/app.py:398-414): 404 when the id is absent.
Deleting a product cascades to its reviews (`cascade='all,
delete-orphan'`, src/app.py:66) but *not* to its order items: those
get their NOT NULL `product_id` nulled out, so the commit raises
IntegrityError and the handler rolls back with a 400. -/
def delete_product (st : Store) (pid : Nat) : Store × ApiStatus :=
  match st.products.find? (fun p => p.id == pid) with
  | none => (st, ApiStatus.notFound)
  | some _ =>
    if st.order_items.any (fun oi => oi.product_id == pid) then
      (st, ApiStatus.badRequest)
    else
      ({ st with
         products := st.products.filter (fun p => p.id != pid),
         reviews := st.reviews.filter (fun r => r.product_id != pid) },
       ApiStatus.ok)

/-! ## Reviews (src/app.py:418-463) -/

/-- The JSON body of `POST /api/reviews` (src/app.py:424-427).
`rating` is `int(data.get('rating', 0))`: an absent key defaults to 0
(then fails the range check). -/
structure ReviewData where
  product_id : Option Nat
  customer_name : Option String
  rating : Option Int
  comment : Option String
  deriving Repr, DecidableEq

/-- Response of `POST /api/reviews`: 201 with the stored row, 404, or
400. -/
inductive ReviewResponse where
  | created (r : Review)
  | notFound
  | badRequest
  deriving Repr, DecidableEq

/-- `add_review` (src/app.py:418-456): range-check the rating first
(400), then resolve the product (404; `Product.query.get(None)` is
also a miss), then insert.  A `None` customer_name violates its NOT
NULL column at commit: rollback + 400. -/
def add_review (st : Store) (data : ReviewData) (now : Nat) :
    Store × ReviewResponse :=
  if data.rating.getD 0 < 1 ∨ data.rating.getD 0 > 5 then
    (st, ReviewResponse.badRequest)
  else
    match data.product_id with
    | none => (st, ReviewResponse.notFound)
    | some pid =>
      match st.products.find? (fun p => p.id == pid) with
      | none => (st, ReviewResponse.notFound)
      | some _ =>
        match data.customer_name with
        | none => (st, ReviewResponse.badRequest)
        | some cname =>
          ({ st with
             reviews := st.reviews ++
               [⟨st.next_review_id, pid, cname, data.rating.getD 0,
                 data.comment.getD "", now⟩],
             next_review_id := st.next_review_id + 1 },
           ReviewResponse.created
             ⟨st.next_review_id, pid, cname, data.rating.getD 0,
               data.comment.getD "", now⟩)

/-- `get_reviews` (src/app.py:459-463): all review rows of a product. -/
def get_reviews (st : Store) (pid : Nat) : List Review :=
  st.reviews.filter (fun r => r.product_id == pid)

/-! ## Admin category/product management (src/app.py:517-654) -/

/-- `add_category` (src/app.py:527-559): gated on the admin session;
rejects a missing or empty name (`if not name`) and an existing name
(exact match); otherwise inserts.  Only the resulting store matters
here, so the re-render/redirect response is dropped. -/
def add_category (st : Store) (s : Session) (name : Option String)
    (description : Option String) : Store :=
  if !is_admin_logged_in s then st
  else
    match name with
    | none => st
    | some n =>
      if n == "" then st
      else if st.categories.any (fun c => c.name == n) then st
      else
        { st with
          categories := st.categories ++ [⟨st.next_category_id, n, description.getD ""⟩],
          next_category_id := st.next_category_id + 1 }

/-- `delete_category` (src/app.py:562-580): gated on the admin
session; a missing id silently no-ops.  Deleting the category cascades
to its products (`cascade='all, delete-orphan'`, src/app.py:39) and
their reviews (src/app.py:66), but order items of those products only
get `product_id` nulled out — a NOT NULL violation — so if any exists
the commit raises and `except` rolls everything back. -/
def delete_category (st : Store) (s : Session) (cid : Nat) : Store :=
  if !is_admin_logged_in s then st
  else
    match st.categories.find? (fun c => c.id == cid) with
    | none => st
    | some _ =>
      let removedIds := (st.products.filter (fun p => p.category_id == some cid)).map
        (fun p => p.id)
      if st.order_items.any (fun oi => removedIds.contains oi.product_id) then st
      else
        { st with
          categories := st.categories.filter (fun c => c.id != cid),
          products := st.products.filter (fun p => p.category_id != some cid),
          reviews := st.reviews.filter (fun r => !removedIds.contains r.product_id) }

/-- The `add-product` admin form (src/app.py:592-596).  `price` is the
value of `float(price)`; `none` merges the by-then-indistinguishable
store effects of a missing/empty field (`if not name or not price or
not image_url`) and a non-numeric price (`ValueError`), both of which
insert nothing.  An empty or absent `category_id` select is `none`
(`category_id if category_id else None`). -/
structure AdminProductForm where
  name : Option String
  price : Option Rat
  image_url : Option String
  category_id : Option Nat
  description : Option String
  deriving Repr, DecidableEq

/-- `add_product_admin` POST branch (src/app.py:584-633). -/
def add_product_admin (st : Store) (s : Session) (f : AdminProductForm)
    (now : Nat) : Store :=
  if !is_admin_logged_in s then st
  else
    match f.name, f.price, f.image_url with
    | some n, some pr, some url =>
      if n == "" || url == "" then st
      else
        { st with
          products := st.products ++
            [⟨st.next_product_id, n, pr, url, 0, f.category_id, f.description.getD "", now⟩],
          next_product_id := st.next_product_id + 1 }
    | _, _, _ => st

/-- `delete_product_admin` (src/app.py:636-654): the admin-gated
variant of the JSON delete; same lookup, cascade and rollback
behaviour, response dropped. -/
def delete_product_admin (st : Store) (s : Session) (pid : Nat) : Store :=
  if !is_admin_logged_in s then st
  else (delete_product st pid).1

/-! ## Route wrappers carrying the session

The three JSON product CRUD handlers never call `is_admin_logged_in`
(contrast the `/admin/...` handlers above); these wrappers make the
incoming session explicit so that independence from it is statable. -/

/-- `POST /api/products` with the request's session in scope; the
handler body (src/app.py:323-349) never reads it. -/
def create_product_route (st : Store) (_s : Session) (data : ProductCreateData)
    (now : Nat) : Store × ApiStatus :=
  create_product st data now

/-- `PUT /api/products/<id>` with the request's session in scope; the
handler body (src/app.py:363-395) never reads it. -/
def update_product_route (st : Store) (_s : Session) (pid : Nat)
    (data : ProductPatch) : Store × ApiStatus :=
  update_product st pid data

/-- `DELETE /api/products/<id>` with the request's session in scope;
the handler body (src/app.py:398-414) never reads it. -/
def delete_product_route (st : Store) (_s : Session) (pid : Nat) :
    Store × ApiStatus :=
  delete_product st pid

/-! ## The exposed mutating surface and reachable states -/

/-- One inbound request to any route that can mutate the store or the
session.  GET-only routes (index, category page, product page, cart,
success page, the JSON list/fetch routes, dashboard, sale) only
render and are omitted: they touch nothing. -/
inductive Op where
  | opCheckout (f : CheckoutForm) (now : Nat)
  | opCreateProduct (data : ProductCreateData) (now : Nat)
  | opUpdateProduct (pid : Nat) (data : ProductPatch)
  | opDeleteProduct (pid : Nat)
  | opAddReview (data : ReviewData) (now : Nat)
  | opLogin (username password : String)
  | opLogout
  | opAddCategory (name description : Option String)
  | opDeleteCategory (cid : Nat)
  | opAddProductAdmin (f : AdminProductForm) (now : Nat)
  | opDeleteProductAdmin (pid : Nat)

/-- Full server state: the database plus the admin session. -/
structure World where
  store : Store
  session : Session
  deriving Repr, DecidableEq

/-- Dispatch one request against the server state. -/
def applyOp (w : World) : Op → World
  | Op.opCheckout f now => ⟨(checkout w.store f now).1, w.session⟩
  | Op.opCreateProduct data now => ⟨(create_product w.store data now).1, w.session⟩
  | Op.opUpdateProduct pid data => ⟨(update_product w.store pid data).1, w.session⟩
  | Op.opDeleteProduct pid => ⟨(delete_product w.store pid).1, w.session⟩
  | Op.opAddReview data now => ⟨(add_review w.store data now).1, w.session⟩
  | Op.opLogin u p => ⟨w.store, (login w.session u p).1⟩
  | Op.opLogout => ⟨w.store, logout w.session⟩
  | Op.opAddCategory n d => ⟨add_category w.store w.session n d, w.session⟩
  | Op.opDeleteCategory cid => ⟨delete_category w.store w.session cid, w.session⟩
  | Op.opAddProductAdmin f now => ⟨add_product_admin w.store w.session f now, w.session⟩
  | Op.opDeleteProductAdmin pid => ⟨delete_product_admin w.store w.session pid, w.session⟩

/-- The server right after `db.create_all()` with no session cookie. -/
def initWorld : World := ⟨emptyStore, emptySession⟩

/-- States reachable from the fresh server by any sequence of
requests. -/
inductive Reachable : World → Prop where
  | init : Reachable initWorld
  | step (w : World) (op : Op) : Reachable w → Reachable (applyOp w op)

/-- A cart item dict holding all three keys, as the storefront's cart
page submits them. -/
def liftCartItem (r : Nat × Int × Rat) : CartItem :=
  ⟨some r.1, some r.2.1, some r.2.2⟩

/-! ## Concrete instances used to exercise the theorems -/

/-- A session in which the hardcoded admin credentials were entered. -/
def adminSession : Session := ⟨true, some "admin"⟩

/-- One category owning one product that a past order references. -/
def c3store : Store :=
  ⟨[⟨1, "Electronics", ""⟩], [⟨1, "Phone", 100, "u", 0, some 1, "", 0⟩], [],
   [⟨1, "A", "B", "C", "D", "cod", 100, "pending", 0⟩], [⟨1, 1, 1, 1, 100⟩],
   2, 2, 1, 2, 2⟩

/-- One category owning one reviewed product, with no orders. -/
def c3storeB : Store :=
  ⟨[⟨1, "Electronics", ""⟩], [⟨1, "Phone", 100, "u", 0, some 1, "", 0⟩],
   [⟨1, 1, "bob", 5, "nice", 0⟩], [], [], 2, 2, 2, 1, 1⟩

/-- The stored product row used to exercise the partial update. -/
def c4prod : Product := ⟨1, "Phone", 100, "img", 0, some 1, "d", 0⟩

/-- A store holding just `c4prod`. -/
def c4store : Store := ⟨[], [c4prod], [], [], [], 1, 2, 1, 1, 1⟩

/-- A store holding one reviewable product. -/
def c5store : Store := ⟨[], [⟨1, "Phone", 10, "u", 0, none, "", 0⟩], [], [], [], 1, 2, 1, 1, 1⟩

/-- A checkout POST whose customer fields are all present but empty
and whose payment method is outside the documented enum. -/
def c6form : CheckoutForm :=
  ⟨some "", some "", some "", some "", some "not_a_method",
   CartData.parsed [⟨some 1, some 2, some 100⟩]⟩

/-- A discounted product. -/
def c7prod : Product := ⟨1, "Phone", 100, "u", 15, none, "", 0⟩

/-- A store holding just `c7prod`. -/
def c7store : Store := ⟨[], [c7prod], [], [], [], 1, 2, 1, 1, 1⟩

/-- An undiscounted product with two reviews in `c8store`. -/
def c8prod : Product := ⟨1, "Phone", 100, "u", 0, none, "", 0⟩

/-- `c8prod` with ratings 5 and 4 (mean 4.5). -/
def c8store : Store :=
  ⟨[], [c8prod], [⟨1, 1, "a", 5, "", 0⟩, ⟨2, 1, "b", 4, "", 0⟩], [], [],
   1, 2, 3, 1, 1⟩

/-- A complete one-item checkout POST. -/
def c9form : CheckoutForm :=
  ⟨some "A", some "B", some "C", some "D", some "cod",
   CartData.parsed [⟨some 1, some 1, some 10⟩]⟩

/-! ## Helper lemmas -/

theorem extractItems_map (raw : List (Nat × Int × Rat)) :
    extractItems (raw.map liftCartItem) = some raw := by
  induction raw with
  | nil => rfl
  | cons h t ih => simp [extractItems, liftCartItem, ih]

theorem extractItems_eq_none (items : List CartItem) (it : CartItem)
    (hmem : it ∈ items)
    (hmiss : it.id = none ∨ it.quantity = none ∨ it.price = none) :
    extractItems items = none := by
  induction items with
  | nil => cases hmem
  | cons h t ih =>
    rcases List.mem_cons.mp hmem with rfl | hmem2
    · obtain ⟨i, q, pr⟩ := it
      rcases i with _ | i <;> rcases q with _ | q <;> rcases pr with _ | pr <;>
        simp_all [extractItems]
    · obtain ⟨i, q, pr⟩ := h
      rcases i with _ | i <;> rcases q with _ | q <;> rcases pr with _ | pr <;>
        simp_all [extractItems]

theorem mkOrderItems_length (base oid : Nat) (rows : List (Nat × Int × Rat)) :
    (mkOrderItems base oid rows).length = rows.length := by
  induction rows generalizing base with
  | nil => rfl
  | cons h t ih => simp [mkOrderItems, ih]

theorem mkOrderItems_map_price (base oid : Nat) (rows : List (Nat × Int × Rat)) :
    (mkOrderItems base oid rows).map (fun oi => oi.price) =
      rows.map (fun r => r.2.2) := by
  induction rows generalizing base with
  | nil => rfl
  | cons h t ih => simp [mkOrderItems, ih]

theorem checkout_success_eq (st : Store) (now : Nat)
    (cname cemail cphone caddr pm : String) (items : List CartItem)
    (rows : List (Nat × Int × Rat)) (hx : extractItems items = some rows)
    (hne : items ≠ []) :
    checkout st ⟨some cname, some cemail, some cphone, some caddr, some pm,
        CartData.parsed items⟩ now =
      ({ st with
         orders := st.orders ++
           [⟨st.next_order_id, cname, cemail, cphone, caddr, pm,
             cartTotal rows, "pending", now⟩],
         order_items := st.order_items ++
           mkOrderItems st.next_order_item_id st.next_order_id rows,
         next_order_id := st.next_order_id + 1,
         next_order_item_id := st.next_order_item_id + rows.length },
       CheckoutResponse.redirectSuccess st.next_order_id) := by
  cases items with
  | nil => exact absurd rfl hne
  | cons h t => simp [checkout, checkoutBody, hx]

theorem checkout_cases (st : Store) (f : CheckoutForm) (now : Nat) :
    (checkout st f now).1 = st ∨
      (checkout st f now).2 = CheckoutResponse.redirectSuccess st.next_order_id := by
  obtain ⟨cn, ce, cp, ca, pm, cd⟩ := f
  cases cd with
  | malformed => exact Or.inl rfl
  | absent => exact Or.inl rfl
  | parsed items =>
    cases items with
    | nil => exact Or.inl rfl
    | cons h t =>
      rcases cn with _ | cn <;> rcases ce with _ | ce <;> rcases cp with _ | cp <;>
        rcases ca with _ | ca <;> rcases pm with _ | pm <;>
        cases hx : extractItems (h :: t) <;>
        simp [checkout, checkoutBody, hx]

theorem checkout_missing_customer_unchanged (st : Store) (f : CheckoutForm)
    (now : Nat)
    (hmiss : f.customer_name = none ∨ f.customer_email = none ∨
      f.customer_phone = none ∨ f.customer_address = none ∨
      f.payment_method = none) :
    (checkout st f now).1 = st := by
  obtain ⟨cn, ce, cp, ca, pm, cd⟩ := f
  cases cd with
  | malformed => rfl
  | absent => rfl
  | parsed items =>
    cases items with
    | nil => rfl
    | cons h t =>
      rcases cn with _ | cn <;> rcases ce with _ | ce <;> rcases cp with _ | cp <;>
        rcases ca with _ | ca <;> rcases pm with _ | pm <;>
        cases hx : extractItems (h :: t) <;>
        simp_all [checkout, checkoutBody]

theorem delete_category_found (st : Store) (s : Session) (cid : Nat)
    (c : Category) (hadmin : is_admin_logged_in s = true)
    (hc : st.categories.find? (fun c => c.id == cid) = some c) :
    delete_category st s cid =
      (if st.order_items.any (fun oi =>
          ((st.products.filter (fun p => p.category_id == some cid)).map
            (fun p => p.id)).contains oi.product_id) then st
       else
        { st with
          categories := st.categories.filter (fun c => c.id != cid),
          products := st.products.filter (fun p => p.category_id != some cid),
          reviews := st.reviews.filter (fun r =>
            !((st.products.filter (fun p => p.category_id == some cid)).map
              (fun p => p.id)).contains r.product_id) }) := by
  unfold delete_category
  rw [hadmin, hc]
  rfl

/-! ## Claims -/

/-- C1: a checkout POST with a non-empty, well-formed cart and all
customer fields present computes `total_price` as the sum of the
client-supplied `price × quantity` over the cart items (never touching
the stored product prices), persists exactly one OrderItem per cart
item whose `price` is the client-supplied price, creates the order
with status `"pending"`, and redirects to the success page of the new
order's id. -/
theorem checkout_places_order (st : Store) (now : Nat)
    (cname cemail cphone caddr pm : String)
    (raw : List (Nat × Int × Rat)) (hne : raw ≠ []) :
    checkout st ⟨some cname, some cemail, some cphone, some caddr, some pm,
        CartData.parsed (raw.map liftCartItem)⟩ now =
      ({ st with
         orders := st.orders ++
           [⟨st.next_order_id, cname, cemail, cphone, caddr, pm,
             cartTotal raw, "pending", now⟩],
         order_items := st.order_items ++
           mkOrderItems st.next_order_item_id st.next_order_id raw,
         next_order_id := st.next_order_id + 1,
         next_order_item_id := st.next_order_item_id + raw.length },
       CheckoutResponse.redirectSuccess st.next_order_id) ∧
    cartTotal raw = (raw.map (fun r => r.2.2 * (r.2.1 : Rat))).sum ∧
    (mkOrderItems st.next_order_item_id st.next_order_id raw).length = raw.length ∧
    (mkOrderItems st.next_order_item_id st.next_order_id raw).map (fun oi => oi.price) =
      raw.map (fun r => r.2.2) := by
  refine ⟨?_, rfl, mkOrderItems_length _ _ _, mkOrderItems_map_price _ _ _⟩
  exact checkout_success_eq st now cname cemail cphone caddr pm _ raw
    (extractItems_map raw) (by simpa using hne)

/-- C1 witness: the spec's example cart — 2 units at price 100 plus 1
unit at price 50 gives `total_price = 250`, two OrderItems with price
snapshots 100 and 50, a `"pending"` order, and a redirect to order 1
on a fresh store. -/
theorem checkout_places_order_witness :
    checkout emptyStore ⟨some "A", some "B", some "C", some "D", some "cod",
        CartData.parsed ([((1 : Nat), (2 : Int), (100 : Rat)), (2, 1, 50)].map liftCartItem)⟩ 7 =
      ({ emptyStore with
         orders := [⟨1, "A", "B", "C", "D", "cod", 250, "pending", 7⟩],
         order_items := [⟨1, 1, 1, 2, 100⟩, ⟨2, 1, 2, 1, 50⟩],
         next_order_id := 2,
         next_order_item_id := 3 },
       CheckoutResponse.redirectSuccess 1) ∧
    cartTotal [((1 : Nat), (2 : Int), (100 : Rat)), (2, 1, 50)] = 250 := by
  have h := checkout_places_order emptyStore 7 "A" "B" "C" "D" "cod"
    [((1 : Nat), (2 : Int), (100 : Rat)), (2, 1, 50)] (List.cons_ne_nil _ _)
  have htot : cartTotal [((1 : Nat), (2 : Int), (100 : Rat)), (2, 1, 50)] = 250 := by
    norm_num [cartTotal]
  refine ⟨?_, htot⟩
  rw [h.1]
  norm_num [emptyStore, mkOrderItems, htot]

/-- C2: checkout is atomic — whenever the POST re-renders with an
error the store is unchanged (no Order and no OrderItem row); in
particular an empty/absent cart is rejected with the empty-cart error,
malformed cart JSON is rejected, a cart item missing a required key is
rejected, and a missing customer form field leaves the store
unchanged. -/
theorem checkout_atomic (st : Store) (f : CheckoutForm) (now : Nat) :
    (∀ msg, (checkout st f now).2 = CheckoutResponse.renderError msg →
      (checkout st f now).1 = st) ∧
    (f.cart_data = CartData.absent ∨ f.cart_data = CartData.parsed [] →
      checkout st f now = (st, CheckoutResponse.renderError cartEmptyMsg)) ∧
    (f.cart_data = CartData.malformed →
      checkout st f now = (st, CheckoutResponse.renderError checkoutErrorMsg)) ∧
    (∀ items it, f.cart_data = CartData.parsed items → it ∈ items →
      it.id = none ∨ it.quantity = none ∨ it.price = none →
      checkout st f now = (st, CheckoutResponse.renderError checkoutErrorMsg)) ∧
    (f.customer_name = none ∨ f.customer_email = none ∨
      f.customer_phone = none ∨ f.customer_address = none ∨
      f.payment_method = none →
      (checkout st f now).1 = st) := by
  refine ⟨?_, ?_, ?_, ?_, checkout_missing_customer_unchanged st f now⟩
  · intro msg h
    rcases checkout_cases st f now with h1 | h1
    · exact h1
    · rw [h] at h1
      cases h1
  · obtain ⟨cn, ce, cp, ca, pm, cd⟩ := f
    rintro (rfl | rfl) <;> rfl
  · obtain ⟨cn, ce, cp, ca, pm, cd⟩ := f
    rintro rfl
    rfl
  · obtain ⟨cn, ce, cp, ca, pm, cd⟩ := f
    rintro items it rfl hmem hmiss
    have hx := extractItems_eq_none items it hmem hmiss
    cases items with
    | nil => cases hmem
    | cons h t =>
      rcases cn with _ | cn <;> rcases ce with _ | ce <;> rcases cp with _ | cp <;>
        rcases ca with _ | ca <;> rcases pm with _ | pm <;>
        simp [checkout, checkoutBody, hx]

/-- C2 witness: on a fresh store, an empty parsed cart is rejected
with the empty-cart error and creates no rows. -/
theorem checkout_atomic_witness :
    checkout emptyStore ⟨some "A", some "B", some "C", some "D", some "cod",
        CartData.parsed []⟩ 0 =
      (emptyStore, CheckoutResponse.renderError cartEmptyMsg) :=
  (checkout_atomic emptyStore ⟨some "A", some "B", some "C", some "D", some "cod",
      CartData.parsed []⟩ 0).2.1 (Or.inr rfl)

/-- C3 counterexample: deleting category 1 of `c3store` — whose only
product is referenced by an OrderItem — removes nothing at all: the
cascade never reaches OrderItems; instead SQLAlchemy nulls out their
NOT NULL `product_id`, the commit raises, and the whole delete rolls
back, so the category row, the product row and the order item all
survive, contradicting the claim that the category and its products
are removed. -/
theorem delete_category_cex :
    delete_category c3store adminSession 1 = c3store ∧
    c3store.order_items = [⟨1, 1, 1, 1, 100⟩] ∧
    (delete_category c3store adminSession 1).categories.any (fun c => c.id == 1) = true ∧
    (delete_category c3store adminSession 1).products.any
      (fun p => p.category_id == some 1) = true := by
  refine ⟨by decide, rfl, by decide, by decide⟩

/-- C3 amended: for a logged-in admin and an existing category id,
the delete removes the category row, every product referencing it and
those products' reviews only when no OrderItem references any of those
products; when some OrderItem does, the commit fails and the store is
left entirely unchanged.  OrderItems are never removed by a category
delete. -/
theorem delete_category_cascade (st : Store) (s : Session) (cid : Nat)
    (hadmin : is_admin_logged_in s = true)
    (hfound : (st.categories.find? (fun c => c.id == cid)).isSome = true) :
    (st.order_items.any (fun oi =>
        ((st.products.filter (fun p => p.category_id == some cid)).map
          (fun p => p.id)).contains oi.product_id) = true →
      delete_category st s cid = st) ∧
    (st.order_items.any (fun oi =>
        ((st.products.filter (fun p => p.category_id == some cid)).map
          (fun p => p.id)).contains oi.product_id) = false →
      delete_category st s cid =
        { st with
          categories := st.categories.filter (fun c => c.id != cid),
          products := st.products.filter (fun p => p.category_id != some cid),
          reviews := st.reviews.filter (fun r =>
            !((st.products.filter (fun p => p.category_id == some cid)).map
              (fun p => p.id)).contains r.product_id) }) ∧
    (delete_category st s cid).order_items = st.order_items := by
  obtain ⟨c, hc⟩ := Option.isSome_iff_exists.mp hfound
  rw [delete_category_found st s cid c hadmin hc]
  refine ⟨?_, ?_, ?_⟩
  · intro hblock
    rw [if_pos hblock]
  · intro hfree
    rw [if_neg (ne_true_of_eq_false hfree)]
  · split <;> rfl

/-- C3 amended witness: on `c3storeB` (one category, one reviewed
product, no orders) the delete does cascade: category, product and
review are all removed. -/
theorem delete_category_cascade_witness :
    delete_category c3storeB adminSession 1 =
      { c3storeB with categories := [], products := [], reviews := [] } := by
  have h := (delete_category_cascade c3storeB adminSession 1 (by decide)
    (by decide)).2.1 (by decide)
  rw [h]
  decide

/-- C4: `update_product` has partial-update semantics — a missing id
gives 404 and changes nothing; a found id gives 200 and rewrites
exactly that row through `applyPatch`, which overwrites the fields
whose key is present and keeps every absent field (and the
non-updatable id, discount and created_at) at its prior value; in
particular a payload carrying only `price = 99` leaves name, image_url
and category_id untouched. -/
theorem update_product_patch_semantics (st : Store) (pid : Nat) (data : ProductPatch)
    (p : Product) :
    (st.products.find? (fun q => q.id == pid) = none →
      update_product st pid data = (st, ApiStatus.notFound)) ∧
    ((st.products.find? (fun q => q.id == pid)).isSome = true →
      (update_product st pid data).2 = ApiStatus.ok ∧
      (update_product st pid data).1.products =
        st.products.map (fun q => if q.id == pid then applyPatch q data else q) ∧
      (update_product st pid data).1.orders = st.orders ∧
      (update_product st pid data).1.categories = st.categories ∧
      (update_product st pid data).1.reviews = st.reviews ∧
      (update_product st pid data).1.order_items = st.order_items) ∧
    (applyPatch p data).name = data.name.getD p.name ∧
    (applyPatch p data).price = data.price.getD p.price ∧
    (applyPatch p data).image_url = data.image_url.getD p.image_url ∧
    (applyPatch p data).category_id = data.category_id.getD p.category_id ∧
    (applyPatch p data).description = data.description.getD p.description ∧
    (applyPatch p data).id = p.id ∧
    (applyPatch p data).discount = p.discount ∧
    (applyPatch p data).created_at = p.created_at ∧
    (data = ⟨none, some 99, none, none, none⟩ →
      (applyPatch p data).name = p.name ∧ (applyPatch p data).price = 99 ∧
      (applyPatch p data).image_url = p.image_url ∧
      (applyPatch p data).category_id = p.category_id) := by
  refine ⟨?_, ?_, rfl, rfl, rfl, rfl, rfl, rfl, rfl, rfl, ?_⟩
  · intro h
    simp [update_product, h]
  · intro h
    obtain ⟨q, hq⟩ := Option.isSome_iff_exists.mp h
    simp [update_product, hq]
  · rintro rfl
    exact ⟨rfl, rfl, rfl, rfl⟩

/-- C4 witness: updating product 1 of `c4store` with only
`price = 99` succeeds and yields the stored row with price 99 and all
other fields as before. -/
theorem update_product_patch_semantics_witness :
    (update_product c4store 1 ⟨none, some 99, none, none, none⟩).2 = ApiStatus.ok ∧
    (update_product c4store 1 ⟨none, some 99, none, none, none⟩).1.products =
      [⟨1, "Phone", 99, "img", 0, some 1, "d", 0⟩] := by
  have h := (update_product_patch_semantics c4store 1 ⟨none, some 99, none, none, none⟩
    c4prod).2.1 (by decide)
  refine ⟨h.1, ?_⟩
  rw [h.2.1]
  decide

/-- C5: `add_review` rejects a rating outside [1,5] with a 400 and an
unchanged store; with an in-range rating it gives 404 and an unchanged
store when the product id is absent or resolves to no product; with an
in-range rating, an existing product and a customer name it persists
the review with the creation timestamp, and the stored row is returned
by the review listing for that product. -/
theorem add_review_spec (st : Store) (data : ReviewData) (now : Nat) :
    (data.rating.getD 0 < 1 ∨ data.rating.getD 0 > 5 →
      add_review st data now = (st, ReviewResponse.badRequest)) ∧
    (1 ≤ data.rating.getD 0 → data.rating.getD 0 ≤ 5 → data.product_id = none →
      add_review st data now = (st, ReviewResponse.notFound)) ∧
    (∀ pid, 1 ≤ data.rating.getD 0 → data.rating.getD 0 ≤ 5 →
      data.product_id = some pid →
      st.products.find? (fun p => p.id == pid) = none →
      add_review st data now = (st, ReviewResponse.notFound)) ∧
    (∀ pid cname, 1 ≤ data.rating.getD 0 → data.rating.getD 0 ≤ 5 →
      data.product_id = some pid →
      (st.products.find? (fun p => p.id == pid)).isSome = true →
      data.customer_name = some cname →
      add_review st data now =
        ({ st with
           reviews := st.reviews ++
             [⟨st.next_review_id, pid, cname, data.rating.getD 0,
               data.comment.getD "", now⟩],
           next_review_id := st.next_review_id + 1 },
         ReviewResponse.created
           ⟨st.next_review_id, pid, cname, data.rating.getD 0,
             data.comment.getD "", now⟩) ∧
      (⟨st.next_review_id, pid, cname, data.rating.getD 0,
        data.comment.getD "", now⟩ : Review) ∈
        get_reviews (add_review st data now).1 pid) := by
  refine ⟨?_, ?_, ?_, ?_⟩
  · intro h
    unfold add_review
    rw [if_pos h]
  · intro h1 h2 hpid
    unfold add_review
    rw [if_neg (by omega)]
    simp [hpid]
  · intro pid h1 h2 hpid hfind
    unfold add_review
    rw [if_neg (by omega)]
    simp [hpid, hfind]
  · intro pid cname h1 h2 hpid hfind hname
    obtain ⟨q, hq⟩ := Option.isSome_iff_exists.mp hfind
    have heq : add_review st data now =
        ({ st with
           reviews := st.reviews ++
             [⟨st.next_review_id, pid, cname, data.rating.getD 0,
               data.comment.getD "", now⟩],
           next_review_id := st.next_review_id + 1 },
         ReviewResponse.created
           ⟨st.next_review_id, pid, cname, data.rating.getD 0,
             data.comment.getD "", now⟩) := by
      unfold add_review
      rw [if_neg (by omega)]
      simp [hpid, hq, hname]
    refine ⟨heq, ?_⟩
    rw [heq]
    simp [get_reviews]

/-- C5 witness: rating 5 on the existing product 1 of `c5store` is
persisted with its timestamp and listed for that product; rating 6 is
rejected with the store unchanged. -/
theorem add_review_spec_witness :
    add_review c5store ⟨some 1, some "bob", some 5, some "good"⟩ 3 =
      ({ c5store with reviews := [⟨1, 1, "bob", 5, "good", 3⟩], next_review_id := 2 },
       ReviewResponse.created ⟨1, 1, "bob", 5, "good", 3⟩) ∧
    (⟨1, 1, "bob", 5, "good", 3⟩ : Review) ∈
      get_reviews (add_review c5store ⟨some 1, some "bob", some 5, some "good"⟩ 3).1 1 ∧
    add_review c5store ⟨some 1, some "carl", some 6, some "wow"⟩ 3 =
      (c5store, ReviewResponse.badRequest) := by
  have h := (add_review_spec c5store ⟨some 1, some "bob", some 5, some "good"⟩ 3).2.2.2
    1 "bob" (by decide) (by decide) rfl (by decide) rfl
  have h6 := (add_review_spec c5store ⟨some 1, some "carl", some 6, some "wow"⟩ 3).1
    (by decide)
  refine ⟨?_, h.2, h6⟩
  rw [h.1]
  decide

/-- C6 counterexample: `checkout` never validates the customer fields
or the payment method.  On a fresh store, a POST whose four customer
fields are present but empty and whose payment method is the
out-of-enum string "not_a_method" still creates the order (the claim
says no order may be created). -/
theorem checkout_no_validation_cex :
    (checkout emptyStore c6form 0).2 = CheckoutResponse.redirectSuccess 1 ∧
    (checkout emptyStore c6form 0).1.orders =
      [⟨1, "", "", "", "", "not_a_method", 200, "pending", 0⟩] := by
  have h := checkout_success_eq emptyStore 0 "" "" "" "" "not_a_method"
    [⟨some 1, some 2, some 100⟩] [(1, 2, 100)] (by rfl) (List.cons_ne_nil _ _)
  have hform : c6form = ⟨some "", some "", some "", some "", some "not_a_method",
      CartData.parsed [⟨some 1, some 2, some 100⟩]⟩ := rfl
  rw [hform, h]
  refine ⟨rfl, ?_⟩
  norm_num [emptyStore, cartTotal]

/-- C6 amended: `checkout` performs no validation of the customer
fields or the payment method.  Whenever all five form fields are
present — with any string values, including empty strings and payment
methods outside the documented enum — and the cart is well-formed and
non-empty, the order is created carrying those exact strings; only a
form field that is altogether missing (Python `None`) aborts the
commit via its NOT NULL column, leaving the store unchanged. -/
theorem checkout_no_field_validation (st : Store) (now : Nat)
    (cname cemail cphone caddr pm : String)
    (raw : List (Nat × Int × Rat)) (hne : raw ≠ []) :
    (checkout st ⟨some cname, some cemail, some cphone, some caddr, some pm,
        CartData.parsed (raw.map liftCartItem)⟩ now).1.orders =
      st.orders ++ [⟨st.next_order_id, cname, cemail, cphone, caddr, pm,
        cartTotal raw, "pending", now⟩] ∧
    (∀ f : CheckoutForm,
      f.customer_name = none ∨ f.customer_email = none ∨
      f.customer_phone = none ∨ f.customer_address = none ∨
      f.payment_method = none →
      (checkout st f now).1 = st) := by
  constructor
  · rw [checkout_success_eq st now cname cemail cphone caddr pm _ raw
      (extractItems_map raw) (by simpa using hne)]
  · intro f hmiss
    exact checkout_missing_customer_unchanged st f now hmiss

/-- C6 amended witness: an order with empty customer strings and an
unknown payment method is accepted on a fresh store; a form whose name
field is missing entirely leaves the store unchanged. -/
theorem checkout_no_field_validation_witness :
    (checkout emptyStore ⟨some "", some "", some "", some "", some "x",
        CartData.parsed ([((1 : Nat), (1 : Int), (5 : Rat))].map liftCartItem)⟩ 0).1.orders =
      emptyStore.orders ++ [⟨1, "", "", "", "", "x", cartTotal [(1, 1, 5)], "pending", 0⟩] ∧
    (checkout emptyStore ⟨none, some "", some "", some "", some "x",
        CartData.parsed ([((1 : Nat), (1 : Int), (5 : Rat))].map liftCartItem)⟩ 0).1 =
      emptyStore := by
  have h := checkout_no_field_validation emptyStore 0 "" "" "" "" "x"
    [((1 : Nat), (1 : Int), (5 : Rat))] (List.cons_ne_nil _ _)
  exact ⟨h.1, h.2 _ (Or.inl rfl)⟩

/-- C7: in the catalog's serialization, `sale_price` is
`price × (1 − discount / 100)` exactly when the product's discount is
positive and `None` otherwise — for the dict of any single product,
for its entry in the product listing, and for any product fetched by
id. -/
theorem sale_price_spec (st : Store) (p : Product) :
    (p.to_dict st).sale_price =
      (if p.discount > 0 then some (p.price * (1 - p.discount / 100)) else none) ∧
    (p ∈ st.products → p.to_dict st ∈ get_products st none) ∧
    (∀ pid d, get_product st pid = some d →
      d.sale_price =
        (if d.discount > 0 then some (d.price * (1 - d.discount / 100)) else none)) := by
  refine ⟨rfl, ?_, ?_⟩
  · intro hp
    exact List.mem_map_of_mem _ hp
  · intro pid d hd
    obtain ⟨q, _, rfl⟩ := Option.map_eq_some'.mp hd
    rfl

/-- C7 witness: `c7prod` (price 100, discount 15) serializes with
`sale_price = 85` and appears in the listing of `c7store`; an
undiscounted product serializes with `sale_price = None`. -/
theorem sale_price_spec_witness :
    (c7prod.to_dict c7store).sale_price = some 85 ∧
    c7prod.to_dict c7store ∈ get_products c7store none ∧
    (c8prod.to_dict c8store).sale_price = none := by
  have h := sale_price_spec c7store c7prod
  refine ⟨?_, h.2.1 (by decide), ?_⟩
  · rw [h.1]
    norm_num [c7prod]
  · have h8 := (sale_price_spec c8store c8prod).1
    rw [h8]
    norm_num [c8prod]

/-- C8: the serialized `rating` of a product equals the arithmetic
mean of its reviews' ratings rounded to one decimal place, and equals
0 when the product has no reviews. -/
theorem average_rating_spec (st : Store) (p : Product) :
    (productReviews st p.id = [] → (p.to_dict st).rating = 0) ∧
    (productReviews st p.id ≠ [] →
      (p.to_dict st).rating =
        round1 (((productReviews st p.id).map (fun r => (r.rating : Rat))).sum /
          ((productReviews st p.id).length : Rat))) := by
  constructor
  · intro h
    have : (p.to_dict st).rating = round1 0 := by
      simp [Product.to_dict, Product.get_average_rating, h]
    rw [this]
    norm_num [round1, roundHalfEven]
  · intro h
    cases hrs : productReviews st p.id with
    | nil => exact absurd hrs h
    | cons a t =>
      simp [Product.to_dict, Product.get_average_rating, hrs]

/-- C8 witness: `c8prod` has ratings 5 and 4 in `c8store`, so its
serialized rating is 4.5; a product of an empty store serializes with
rating 0. -/
theorem average_rating_spec_witness :
    (c8prod.to_dict c8store).rating = 9 / 2 ∧
    (c7prod.to_dict c7store).rating = 0 := by
  constructor
  · have h := (average_rating_spec c8store c8prod).2 (by decide)
    rw [h]
    have : ((productReviews c8store c8prod.id).map (fun r => (r.rating : Rat))).sum /
        ((productReviews c8store c8prod.id).length : Rat) = 9 / 2 := by
      norm_num [productReviews, c8store, c8prod]
    rw [this]
    have h45 : (10 : Rat) * (9 / 2) = 45 := by norm_num
    unfold round1 roundHalfEven
    rw [h45]
    norm_num
  · have h := (average_rating_spec c7store c7prod).1 (by decide)
    exact h

/-! ## Order-frame lemmas for the reachability invariant -/

theorem checkout_order_mem (st : Store) (f : CheckoutForm) (now : Nat) :
    ∀ o ∈ (checkout st f now).1.orders, o ∈ st.orders ∨ o.status = "pending" := by
  obtain ⟨cn, ce, cp, ca, pm, cd⟩ := f
  cases cd with
  | malformed => intro o ho; exact Or.inl ho
  | absent => intro o ho; exact Or.inl ho
  | parsed items =>
    cases items with
    | nil => intro o ho; exact Or.inl ho
    | cons h t =>
      intro o ho
      rcases cn with _ | cn <;> rcases ce with _ | ce <;> rcases cp with _ | cp <;>
        rcases ca with _ | ca <;> rcases pm with _ | pm <;>
        cases hx : extractItems (h :: t) <;>
        simp only [checkout, checkoutBody, hx, List.isEmpty_cons, Bool.false_eq_true,
          if_false] at ho <;>
        first
          | exact Or.inl ho
          | (rcases List.mem_append.mp ho with h1 | h1
             · exact Or.inl h1
             · rcases List.mem_singleton.mp h1 with rfl
               exact Or.inr rfl)

theorem create_product_orders (st : Store) (data : ProductCreateData) (now : Nat) :
    (create_product st data now).1.orders = st.orders := by
  unfold create_product
  split <;> rfl

theorem update_product_orders (st : Store) (pid : Nat) (data : ProductPatch) :
    (update_product st pid data).1.orders = st.orders := by
  unfold update_product
  split <;> rfl

theorem delete_product_orders (st : Store) (pid : Nat) :
    (delete_product st pid).1.orders = st.orders := by
  unfold delete_product
  split
  · rfl
  · split <;> rfl

theorem add_review_orders (st : Store) (data : ReviewData) (now : Nat) :
    (add_review st data now).1.orders = st.orders := by
  unfold add_review
  split
  · rfl
  · split
    · rfl
    · split
      · rfl
      · split <;> rfl

theorem add_category_orders (st : Store) (s : Session) (name : Option String)
    (description : Option String) :
    (add_category st s name description).orders = st.orders := by
  unfold add_category
  split
  · rfl
  · split
    · rfl
    · split
      · rfl
      · split <;> rfl

theorem delete_category_orders (st : Store) (s : Session) (cid : Nat) :
    (delete_category st s cid).orders = st.orders := by
  unfold delete_category
  split
  · rfl
  · split
    · rfl
    · dsimp only
      split <;> rfl

theorem add_product_admin_orders (st : Store) (s : Session)
    (f : AdminProductForm) (now : Nat) :
    (add_product_admin st s f now).orders = st.orders := by
  unfold add_product_admin
  split
  · rfl
  · split
    · split <;> rfl
    · rfl

theorem delete_product_admin_orders (st : Store) (s : Session) (pid : Nat) :
    (delete_product_admin st s pid).orders = st.orders := by
  unfold delete_product_admin
  split
  · rfl
  · exact delete_product_orders st pid

theorem applyOp_order_mem (w : World) (op : Op) :
    ∀ o ∈ (applyOp w op).store.orders, o ∈ w.store.orders ∨ o.status = "pending" := by
  cases op with
  | opCheckout f now => exact checkout_order_mem w.store f now
  | opCreateProduct data now =>
    intro o ho
    rw [show (applyOp w (Op.opCreateProduct data now)).store.orders =
      w.store.orders from create_product_orders w.store data now] at ho
    exact Or.inl ho
  | opUpdateProduct pid data =>
    intro o ho
    rw [show (applyOp w (Op.opUpdateProduct pid data)).store.orders =
      w.store.orders from update_product_orders w.store pid data] at ho
    exact Or.inl ho
  | opDeleteProduct pid =>
    intro o ho
    rw [show (applyOp w (Op.opDeleteProduct pid)).store.orders =
      w.store.orders from delete_product_orders w.store pid] at ho
    exact Or.inl ho
  | opAddReview data now =>
    intro o ho
    rw [show (applyOp w (Op.opAddReview data now)).store.orders =
      w.store.orders from add_review_orders w.store data now] at ho
    exact Or.inl ho
  | opLogin u p => intro o ho; exact Or.inl ho
  | opLogout => intro o ho; exact Or.inl ho
  | opAddCategory n d =>
    intro o ho
    rw [show (applyOp w (Op.opAddCategory n d)).store.orders =
      w.store.orders from add_category_orders w.store w.session n d] at ho
    exact Or.inl ho
  | opDeleteCategory cid =>
    intro o ho
    rw [show (applyOp w (Op.opDeleteCategory cid)).store.orders =
      w.store.orders from delete_category_orders w.store w.session cid] at ho
    exact Or.inl ho
  | opAddProductAdmin f now =>
    intro o ho
    rw [show (applyOp w (Op.opAddProductAdmin f now)).store.orders =
      w.store.orders from add_product_admin_orders w.store w.session f now] at ho
    exact Or.inl ho
  | opDeleteProductAdmin pid =>
    intro o ho
    rw [show (applyOp w (Op.opDeleteProductAdmin pid)).store.orders =
      w.store.orders from delete_product_admin_orders w.store w.session pid] at ho
    exact Or.inl ho

/-- C9: every order is created with status `"pending"` and no exposed
operation ever changes an order's status, so in every reachable server
state every persisted order has status `"pending"`. -/
theorem order_status_invariant (w : World) (h : Reachable w) :
    ∀ o ∈ w.store.orders, o.status = "pending" := by
  induction h with
  | init => intro o ho; cases ho
  | step w' op _ ih =>
    intro o ho
    rcases applyOp_order_mem w' op o ho with h1 | h1
    · exact ih o h1
    · exact h1

/-- C9 witness: after one checkout request against the fresh server,
every stored order (there is one) has status `"pending"`. -/
theorem order_status_invariant_witness :
    ((applyOp initWorld (Op.opCheckout c9form 5)).store.orders.all
      (fun o => o.status == "pending")) = true := by
  have h := order_status_invariant (applyOp initWorld (Op.opCheckout c9form 5))
    (Reachable.step initWorld (Op.opCheckout c9form 5) Reachable.init)
  rw [List.all_eq_true]
  intro o ho
  exact beq_iff_eq.mpr (h o ho)

/-- C10: the JSON product CRUD endpoints perform no admin-session
check: each of create, update and delete produces the same response
and the same store mutation under any two sessions — in particular
with the admin flag set and with a fresh unauthenticated session — so
unauthenticated clients can create, update and delete products (shown
concretely by a creation that succeeds under the fresh session). -/
theorem api_crud_ignores_session (st : Store) (s1 s2 : Session)
    (data : ProductCreateData) (pid : Nat) (patch : ProductPatch) (now : Nat)
    (n url : String) (pr : Rat) :
    create_product_route st s1 data now = create_product_route st s2 data now ∧
    update_product_route st s1 pid patch = update_product_route st s2 pid patch ∧
    delete_product_route st s1 pid = delete_product_route st s2 pid ∧
    create_product_route st emptySession data now =
      create_product_route st adminSession data now ∧
    is_admin_logged_in emptySession = false ∧
    (create_product_route st emptySession ⟨some n, some pr, some url, none, none⟩ now).2 =
      ApiStatus.created :=
  ⟨rfl, rfl, rfl, rfl, rfl, rfl⟩

end MarkShop
